import Mathlib

/-!
Shallow embedding of the cnocr repository fragment (scripts/cnocr_train.py and
setup.py) and proofs about its argument parsing, configuration derivation,
hyperparameter update and data-iterator construction.

Conventions of the embedding:
- Python strings are `String`, Python ints are `Int`, Python floats appearing
  only as carried literals are exact rationals `ℚ` (no float arithmetic occurs
  in the embedded code), Python `None`-able values are `Option`.
- Filesystem interaction is explicit: `os.path.exists` becomes a predicate
  `fs_exists : String → Bool` passed in, and `os.makedirs` becomes an element
  of a returned list of `FsEffect`s.
- Collaborator modules imported by the script but not present under src/
  (`memegle_cnocr.consts`, `memegle_cnocr.hyperparams`, `memegle_cnocr.data_utils`,
  `memegle_cnocr.symbols.crnn`, and mxnet) are modelled from the spec; each such
  definition carries a doc comment starting with `Modelled from the spec:`.
-/

/-- Python (POSIX) `os.path.join` restricted to two components, exactly as the
stdlib computes it: an absolute second component replaces the first, otherwise
the parts are joined with a single separator. -/
def os_path_join (a b : String) : String :=
  if b.startsWith "/" then b
  else if a = "" ∨ a.endsWith "/" then a ++ b
  else a ++ "/" ++ b

/-- Modelled from the spec: the augmentation transforms that appear in the
script's augmentation chain.  The spec describes "photometric perturbations
(brightness/contrast/saturation/hue/noise jitter)" built by
`mx.image.CreateAugmenter` and "a foreground/background flip transform with
fixed probability" (`FgBgFlipAug`, from `memegle_cnocr.data_utils.aug`, which is
not under src/).  Each constructor records the transform's parameter value. -/
inductive Augmenter where
  | BrightnessJitterAug (v : ℚ)
  | ContrastJitterAug (v : ℚ)
  | SaturationJitterAug (v : ℚ)
  | HueJitterAug (v : ℚ)
  | PcaNoiseJitterAug (v : ℚ)
  | FgBgFlipAug (p : ℚ)
  deriving DecidableEq

/-- An augmenter is photometric when it is one of the jitter perturbations,
i.e. anything except the foreground/background flip. -/
def Augmenter.isPhotometric : Augmenter → Bool
  | .FgBgFlipAug _ => false
  | _ => true

/-- Recognizer for the foreground/background flip transform. -/
def Augmenter.isFgBgFlip : Augmenter → Bool
  | .FgBgFlipAug _ => true
  | _ => false

/-- Modelled from the spec: `mx.image.CreateAugmenter` is external (mxnet, not
under src/).  Per the spec it "composes a fixed sequence of photometric
perturbations (brightness/contrast/saturation/hue/noise jitter)".  The
non-photometric options are accepted with the values the script passes
(resize=0, rand_crop=False, rand_resize=False, rand_mirror=False, mean=None,
std=None, inter_method=2) and contribute no transform. -/
def CreateAugmenter (data_shape : Int × Int × Int) (resize : Int)
    (rand_crop rand_resize rand_mirror : Bool) (mean std : Option Unit)
    (brightness contrast saturation hue pca_noise : ℚ) (inter_method : Int) :
    List Augmenter :=
  [Augmenter.BrightnessJitterAug brightness, Augmenter.ContrastJitterAug contrast,
   Augmenter.SaturationJitterAug saturation, Augmenter.HueJitterAug hue,
   Augmenter.PcaNoiseJitterAug pca_noise]

/-- Modelled from the spec: `CnHyperparams`
(`memegle_cnocr.hyperparams.cn_hyperparams`, not under src/) is "a mutable
record holding sequence length, image dimensions, batch size, learning rate,
dropout, weight decay, gradient-clip threshold, optimizer name, label width",
together with the sequence-model type and epoch count that `_update_hp`
assigns.  The Python attribute names `_num_epoch`, `_batch_size`,
`_learning_rate`, `_drop_out` are rendered without the leading underscore.
The constructor's default values are not under src/, so code that builds
`CnHyperparams()` takes the initial record as a parameter. -/
structure CnHyperparams where
  seq_length : Int
  img_height : Int
  img_width : Int
  batch_size : Int
  learning_rate : ℚ
  drop_out : ℚ
  wd : ℚ
  clip_gradient : Option ℚ
  optimizer : String
  num_label : Int
  seq_model_type : String
  num_epoch : Int
  deriving DecidableEq

/-- Modelled from the spec: `GrayImageIter`
(`memegle_cnocr.data_utils.data_iter`, not under src/) is "an external
streaming abstraction over an image-record file pair (image blob file + index
file) ... optionally composed with a chain of augmentation transforms".  The
record captures the constructor arguments the script passes; `shuffle` and
`aug_list` keep the constructor defaults (no shuffling, no augmentation chain)
when the script omits them, as for the validation iterator. -/
structure GrayImageIter where
  batch_size : Int
  data_shape : Int × Int × Int
  label_width : Int
  dtype : String
  shuffle : Bool := false
  path_imgrec : String
  path_imgidx : String
  aug_list : Option (List Augmenter) := none
  deriving DecidableEq

/-- Filesystem side effects performed by the embedded code:
`os.makedirs path`. -/
inductive FsEffect where
  | makedirs (path : String)
  deriving DecidableEq

/-- The parsed argument object produced by `parse_args` (an argparse
`Namespace`): one field per flag registered in scripts/cnocr_train.py lines
45-120, with the argparse types (`store_true` becomes `Bool`, optional flags
with `default=None` become `Option`). -/
structure Args where
  emb_model_type : String
  seq_model_type : String
  train_file : String
  test_file : String
  use_train_image_aug : Bool
  gpu : Int
  optimizer : String
  batch_size : Int
  epoch : Int
  load_epoch : Option Int
  lr : ℚ
  dropout : ℚ
  wd : ℚ
  clip_gradient : Option ℚ
  out_model_dir : String
  deriving DecidableEq

/-- A command line, represented after lexing/typing: for each registered flag,
`some v` when the flag was supplied with value `v` and `none` when it was
omitted (the `store_true` flag is simply present or absent).  Numeric
malformedness is outside this model; choice validation, which argparse applies
to supplied values, is performed by `parse_args` below. -/
structure RawArgs where
  emb_model_type : Option String := none
  seq_model_type : Option String := none
  train_file : Option String := none
  test_file : Option String := none
  use_train_image_aug : Bool := false
  gpu : Option Int := none
  optimizer : Option String := none
  batch_size : Option Int := none
  epoch : Option Int := none
  load_epoch : Option Int := none
  lr : Option ℚ := none
  dropout : Option ℚ := none
  wd : Option ℚ := none
  clip_gradient : Option ℚ := none
  out_model_dir : Option String := none
  deriving DecidableEq

/-- Argparse choice validation for one flag: a supplied value must belong to
the `choices` list, an omitted flag takes the default. -/
def checkChoice (flag : String) (choices : List String) (dflt : String) :
    Option String → Except String String
  | none => Except.ok dflt
  | some v =>
    if v ∈ choices then Except.ok v
    else Except.error ("argument --" ++ flag ++ ": invalid choice: " ++ v)

/-- Embedding of `parse_args` (scripts/cnocr_train.py lines 41-121).
`embTypes`, `seqTypes` stand for the imported constants `EMB_MODEL_TYPES` and
`SEQ_MODEL_TYPES`, and `dataDir`, `mv` for `data_dir()` and `MODEL_VERSION`
(all from `memegle_cnocr`, not under src/; the default `out_model_dir` is
`os.path.join(data_dir(), MODEL_VERSION)`).  Validation failure of either
enum-constrained flag aborts parsing with an error, as argparse does. -/
def parse_args (embTypes seqTypes : List String) (dataDir mv : String)
    (raw : RawArgs) : Except String Args :=
  match checkChoice "emb_model_type" embTypes "conv-lite" raw.emb_model_type with
  | Except.error e => Except.error e
  | Except.ok emb =>
    match checkChoice "seq_model_type" seqTypes "fc" raw.seq_model_type with
    | Except.error e => Except.error e
    | Except.ok seqm =>
      Except.ok
        { emb_model_type := emb
          seq_model_type := seqm
          train_file := raw.train_file.getD "data/sample-data-lst/train.txt"
          test_file := raw.test_file.getD "data/sample-data-lst/test.txt"
          use_train_image_aug := raw.use_train_image_aug
          gpu := raw.gpu.getD 0
          optimizer := raw.optimizer.getD "Adam"
          batch_size := raw.batch_size.getD 128
          epoch := raw.epoch.getD 20
          load_epoch := raw.load_epoch
          lr := raw.lr.getD 0.001
          dropout := raw.dropout.getD 0.5
          wd := raw.wd.getD 0.0
          clip_gradient := raw.clip_gradient
          out_model_dir := raw.out_model_dir.getD (os_path_join dataDir mv) }

/-- Embedding of `_update_hp` (scripts/cnocr_train.py lines 157-166): copies
exactly eight CLI values into the hyperparameter record and returns it. -/
def _update_hp (hp : CnHyperparams) (args : Args) : CnHyperparams :=
  { hp with
    seq_model_type := args.seq_model_type
    num_epoch := args.epoch
    optimizer := args.optimizer
    batch_size := args.batch_size
    learning_rate := args.lr
    drop_out := args.dropout
    wd := args.wd
    clip_gradient := args.clip_gradient }

/-- Embedding of `_gen_iters` (scripts/cnocr_train.py lines 169-209).  The
Python parameters `train_fp_prefix` / `val_fp_prefix` are rendered `train_fp` /
`val_fp`; `str(...)` on them is the identity since they are strings.  When
`use_train_image_aug` is set, the chain is `mx.image.CreateAugmenter(...)` with
the literal photometric parameters of lines 181-185 followed by
`FgBgFlipAug(p=0.2)` appended (line 188); otherwise `augs` stays `None`.  The
validation iterator is built without `shuffle` and without `aug_list`. -/
def _gen_iters (hp : CnHyperparams) (train_fp val_fp : String)
    (use_train_image_aug : Bool) : GrayImageIter × GrayImageIter :=
  let height := hp.img_height
  let width := hp.img_width
  let augs : Option (List Augmenter) :=
    if use_train_image_aug then
      some (CreateAugmenter (3, height, width) 0 false false false none none
              0.001 0.001 0.001 0.05 0.1 2 ++ [Augmenter.FgBgFlipAug 0.2])
    else none
  let train_iter : GrayImageIter :=
    { batch_size := hp.batch_size
      data_shape := (3, height, width)
      label_width := hp.num_label
      dtype := "int32"
      shuffle := true
      path_imgrec := train_fp ++ ".rec"
      path_imgidx := train_fp ++ ".idx"
      aug_list := augs }
  let val_iter : GrayImageIter :=
    { batch_size := hp.batch_size
      data_shape := (3, height, width)
      label_width := hp.num_label
      dtype := "int32"
      path_imgrec := val_fp ++ ".rec"
      path_imgidx := val_fp ++ ".idx" }
  (train_iter, val_iter)

/-- Modelled from the spec: `gen_network` (`memegle_cnocr.symbols.crnn`, not
under src/) builds the network graph for the model name and returns it with
the hyperparameter record; per the spec the record is "mutated once from
parsed CLI flags, then read-only for the rest of the run", so it is returned
unchanged.  The graph itself is opaque and represented by its model name. -/
def gen_network (model_name : String) (hp : CnHyperparams) :
    String × CnHyperparams :=
  (model_name, hp)

/-- The run configuration assembled by `train_cnocr`: derived name and paths
(the Python attributes `args.model_name` and `args.prefix`, the latter rendered
`ckpt_pre`), the resolved hyperparameters, and the two iterators handed to
`fit`. -/
structure TrainConfig where
  model_name : String
  out_dir : String
  ckpt_pre : String
  network : String
  hp : CnHyperparams
  data_train : GrayImageIter
  data_val : GrayImageIter
  deriving DecidableEq

/-- Embedding of `train_cnocr` (scripts/cnocr_train.py lines 124-154).  `mv`
stands for the imported constant `MODEL_VERSION` and `hp0` for the record
built by `CnHyperparams()` (both from modules not under src/); `fs_exists`
models `os.path.exists`.  Returns the assembled configuration together with
the filesystem effects performed: `os.makedirs(out_dir)` exactly when the
output directory does not already exist.  The final call to the external
`fit` routine consumes the configuration and is outside the fragment. -/
def train_cnocr (mv : String) (fs_exists : String → Bool) (hp0 : CnHyperparams)
    (args : Args) : TrainConfig × List FsEffect :=
  let model_name := args.emb_model_type ++ "-" ++ args.seq_model_type
  let out_dir := os_path_join args.out_model_dir model_name
  let effects := if fs_exists out_dir then [] else [FsEffect.makedirs out_dir]
  let ckpt_pre := os_path_join out_dir ("cnocr-v" ++ mv ++ "-" ++ model_name)
  let hp1 := _update_hp hp0 args
  let ngh := gen_network model_name hp1
  let iters := _gen_iters ngh.2 args.train_file args.test_file args.use_train_image_aug
  ({ model_name := model_name
     out_dir := out_dir
     ckpt_pre := ckpt_pre
     network := ngh.1
     hp := ngh.2
     data_train := iters.1
     data_val := iters.2 }, effects)

/-- Embedding of the `__main__` block (scripts/cnocr_train.py lines 212-214):
parse the command line, then run `train_cnocr` on the result; a parse error
aborts the program before `train_cnocr` runs. -/
def run_main (embTypes seqTypes : List String) (dataDir mv : String)
    (fs_exists : String → Bool) (hp0 : CnHyperparams) (raw : RawArgs) :
    Except String (TrainConfig × List FsEffect) :=
  match parse_args embTypes seqTypes dataDir mv raw with
  | Except.error e => Except.error e
  | Except.ok args => Except.ok (train_cnocr mv fs_exists hp0 args)

/-- Filesystem effects of a whole run: none when parsing failed. -/
def runEffects (r : Except String (TrainConfig × List FsEffect)) :
    List FsEffect :=
  match r with
  | Except.error _ => []
  | Except.ok (_, es) => es

/-- Number of transforms in an (optional) augmentation chain: an absent chain
has zero transforms. -/
def augLen (o : Option (List Augmenter)) : Nat :=
  (o.getD []).length

/-- Concrete argument record used by witness instantiations: the script's
default flag values with a concrete output directory. -/
def sampleArgs : Args :=
  { emb_model_type := "conv-lite"
    seq_model_type := "fc"
    train_file := "data/sample-data-lst/train.txt"
    test_file := "data/sample-data-lst/test.txt"
    use_train_image_aug := false
    gpu := 0
    optimizer := "Adam"
    batch_size := 128
    epoch := 20
    load_epoch := none
    lr := 0.001
    dropout := 0.5
    wd := 0
    clip_gradient := none
    out_model_dir := "/data/cnocr/1.2.0" }

/-- Concrete hyperparameter record used by witness instantiations (standing
for the `CnHyperparams()` defaults, which are not under src/). -/
def sampleHp : CnHyperparams :=
  { seq_length := 35
    img_height := 32
    img_width := 280
    batch_size := 128
    learning_rate := 0.001
    drop_out := 0.5
    wd := 0
    clip_gradient := none
    optimizer := "Adam"
    num_label := 20
    seq_model_type := "lstm"
    num_epoch := 20 }

/-- Concrete command line supplying an out-of-set embedding-model type. -/
def badRaw : RawArgs :=
  { emb_model_type := some "bogus" }

/-- C1: for every pair of accepted flag values X for --emb_model_type and Y
for --seq_model_type, `train_cnocr` derives the model name "X-Y", derives the
output directory as the path join of out_model_dir and "X-Y", and performs
`os.makedirs` on that directory when it does not already exist. -/
theorem train_cnocr_name_dir_makedirs (embTypes seqTypes : List String)
    (mv : String) (fs_exists : String → Bool) (hp0 : CnHyperparams)
    (args : Args) (hX : args.emb_model_type ∈ embTypes)
    (hY : args.seq_model_type ∈ seqTypes) :
    (train_cnocr mv fs_exists hp0 args).1.model_name
        = args.emb_model_type ++ "-" ++ args.seq_model_type ∧
    (train_cnocr mv fs_exists hp0 args).1.out_dir
        = os_path_join args.out_model_dir
            (args.emb_model_type ++ "-" ++ args.seq_model_type) ∧
    (fs_exists (os_path_join args.out_model_dir
        (args.emb_model_type ++ "-" ++ args.seq_model_type)) = false →
      (train_cnocr mv fs_exists hp0 args).2
        = [FsEffect.makedirs (os_path_join args.out_model_dir
            (args.emb_model_type ++ "-" ++ args.seq_model_type))]) := by
  refine ⟨rfl, rfl, fun h => ?_⟩
  simp [train_cnocr, h]

/-- Witness for C1 at concrete inputs. -/
theorem train_cnocr_name_dir_makedirs_witness :
    (train_cnocr "1.2.0" (fun _ => false) sampleHp sampleArgs).1.model_name
        = sampleArgs.emb_model_type ++ "-" ++ sampleArgs.seq_model_type ∧
    (train_cnocr "1.2.0" (fun _ => false) sampleHp sampleArgs).1.out_dir
        = os_path_join sampleArgs.out_model_dir
            (sampleArgs.emb_model_type ++ "-" ++ sampleArgs.seq_model_type) ∧
    ((fun _ => false : String → Bool) (os_path_join sampleArgs.out_model_dir
        (sampleArgs.emb_model_type ++ "-" ++ sampleArgs.seq_model_type)) = false →
      (train_cnocr "1.2.0" (fun _ => false) sampleHp sampleArgs).2
        = [FsEffect.makedirs (os_path_join sampleArgs.out_model_dir
            (sampleArgs.emb_model_type ++ "-" ++ sampleArgs.seq_model_type))]) :=
  train_cnocr_name_dir_makedirs ["conv", "conv-lite"] ["fc", "lstm"] "1.2.0"
    (fun _ => false) sampleHp sampleArgs (by simp [sampleArgs])
    (by simp [sampleArgs])

/-- C2: the checkpoint prefix computed by `train_cnocr` is the deterministic
string path join of out_model_dir, the model name, and
"cnocr-v<MODEL_VERSION>-<model_name>"; two runs agreeing on out_model_dir,
emb_model_type and seq_model_type produce identical prefix strings. -/
theorem train_cnocr_ckpt_deterministic (mv : String)
    (fs1 fs2 : String → Bool) (hp1 hp2 : CnHyperparams) (args1 args2 : Args)
    (hdir : args1.out_model_dir = args2.out_model_dir)
    (hemb : args1.emb_model_type = args2.emb_model_type)
    (hseq : args1.seq_model_type = args2.seq_model_type) :
    (train_cnocr mv fs1 hp1 args1).1.ckpt_pre
        = (train_cnocr mv fs2 hp2 args2).1.ckpt_pre ∧
    (train_cnocr mv fs1 hp1 args1).1.ckpt_pre
        = os_path_join
            (os_path_join args1.out_model_dir
              (args1.emb_model_type ++ "-" ++ args1.seq_model_type))
            ("cnocr-v" ++ mv ++ "-"
              ++ (args1.emb_model_type ++ "-" ++ args1.seq_model_type)) := by
  constructor
  · simp [train_cnocr, hdir, hemb, hseq]
  · rfl

/-- Witness for C2 at concrete inputs: two runs differing in filesystem state
agree on the checkpoint prefix. -/
theorem train_cnocr_ckpt_deterministic_witness :
    (train_cnocr "1.2.0" (fun _ => false) sampleHp sampleArgs).1.ckpt_pre
        = (train_cnocr "1.2.0" (fun _ => true) sampleHp sampleArgs).1.ckpt_pre ∧
    (train_cnocr "1.2.0" (fun _ => false) sampleHp sampleArgs).1.ckpt_pre
        = os_path_join
            (os_path_join sampleArgs.out_model_dir
              (sampleArgs.emb_model_type ++ "-" ++ sampleArgs.seq_model_type))
            ("cnocr-v" ++ "1.2.0" ++ "-"
              ++ (sampleArgs.emb_model_type ++ "-" ++ sampleArgs.seq_model_type)) :=
  train_cnocr_ckpt_deterministic "1.2.0" (fun _ => false) (fun _ => true)
    sampleHp sampleHp sampleArgs sampleArgs rfl rfl rfl

/-- C3: a command line that supplies a value outside EMB_MODEL_TYPES for
--emb_model_type or outside SEQ_MODEL_TYPES for --seq_model_type makes
`parse_args` fail with a validation error, before `train_cnocr` runs and hence
before any output directory is created (the run performs no effects). -/
theorem run_main_rejects_bad_choice (embTypes seqTypes : List String)
    (dataDir mv : String) (fs_exists : String → Bool) (hp0 : CnHyperparams)
    (raw : RawArgs)
    (hbad : (∃ v, raw.emb_model_type = some v ∧ v ∉ embTypes) ∨
            (∃ v, raw.seq_model_type = some v ∧ v ∉ seqTypes)) :
    (∃ msg, run_main embTypes seqTypes dataDir mv fs_exists hp0 raw
        = Except.error msg) ∧
    runEffects (run_main embTypes seqTypes dataDir mv fs_exists hp0 raw)
        = [] := by
  have herr : ∃ msg, parse_args embTypes seqTypes dataDir mv raw
      = Except.error msg := by
    rcases hbad with ⟨v, hv, hn⟩ | ⟨v, hv, hn⟩
    · refine ⟨"argument --" ++ "emb_model_type" ++ ": invalid choice: " ++ v, ?_⟩
      unfold parse_args
      rw [hv]
      simp only [checkChoice]
      rw [if_neg hn]
    · cases hemb : checkChoice "emb_model_type" embTypes "conv-lite"
          raw.emb_model_type with
      | error e =>
        refine ⟨e, ?_⟩
        unfold parse_args
        rw [hemb]
      | ok s =>
        refine ⟨"argument --" ++ "seq_model_type" ++ ": invalid choice: " ++ v, ?_⟩
        unfold parse_args
        rw [hemb, hv]
        simp only [checkChoice]
        rw [if_neg hn]
  obtain ⟨msg, hmsg⟩ := herr
  refine ⟨⟨msg, ?_⟩, ?_⟩
  · simp [run_main, hmsg]
  · simp [run_main, hmsg, runEffects]

/-- Witness for C3 at concrete inputs. -/
theorem run_main_rejects_bad_choice_witness :
    (∃ msg, run_main ["conv-lite"] ["fc"] "/data" "1.2.0" (fun _ => false)
        sampleHp badRaw = Except.error msg) ∧
    runEffects (run_main ["conv-lite"] ["fc"] "/data" "1.2.0" (fun _ => false)
        sampleHp badRaw) = [] :=
  run_main_rejects_bad_choice ["conv-lite"] ["fc"] "/data" "1.2.0"
    (fun _ => false) sampleHp badRaw
    (Or.inl ⟨"bogus", by simp [badRaw], by decide⟩)

/-- C4: with use_train_image_aug false, `_gen_iters` gives the training and
validation iterators identical augmentation state, namely none. -/
theorem gen_iters_no_aug_when_unset (hp : CnHyperparams)
    (train_fp val_fp : String) :
    (_gen_iters hp train_fp val_fp false).1.aug_list = none ∧
    (_gen_iters hp train_fp val_fp false).2.aug_list = none ∧
    (_gen_iters hp train_fp val_fp false).1.aug_list
      = (_gen_iters hp train_fp val_fp false).2.aug_list :=
  ⟨rfl, rfl, rfl⟩

/-- C5: with use_train_image_aug true, the training iterator's augmentation
chain has strictly more transforms than the validation iterator's. -/
theorem gen_iters_train_aug_strictly_more (hp : CnHyperparams)
    (train_fp val_fp : String) :
    augLen (_gen_iters hp train_fp val_fp true).2.aug_list
      < augLen (_gen_iters hp train_fp val_fp true).1.aug_list := by
  show (0 : Nat) < 6
  decide

/-- C6: for every input, the validation iterator is constructed without any
augmentation chain. -/
theorem gen_iters_val_always_unaugmented (hp : CnHyperparams)
    (train_fp val_fp : String) (use_train_image_aug : Bool) :
    (_gen_iters hp train_fp val_fp use_train_image_aug).2.aug_list = none :=
  rfl

/-- C7: when augmentation is requested, the training chain is exactly the
fixed photometric perturbations (brightness, contrast, saturation, hue and
PCA-noise jitter with the script's literal parameters) followed by exactly one
foreground/background flip with probability 0.2 as the last element. -/
theorem gen_iters_train_aug_chain_shape (hp : CnHyperparams)
    (train_fp val_fp : String) :
    (_gen_iters hp train_fp val_fp true).1.aug_list
      = some (CreateAugmenter (3, hp.img_height, hp.img_width) 0 false false
          false none none 0.001 0.001 0.001 0.05 0.1 2
          ++ [Augmenter.FgBgFlipAug 0.2]) ∧
    (_gen_iters hp train_fp val_fp true).1.aug_list
      = some [Augmenter.BrightnessJitterAug 0.001,
          Augmenter.ContrastJitterAug 0.001,
          Augmenter.SaturationJitterAug 0.001, Augmenter.HueJitterAug 0.05,
          Augmenter.PcaNoiseJitterAug 0.1, Augmenter.FgBgFlipAug 0.2] ∧
    (((_gen_iters hp train_fp val_fp true).1.aug_list.getD []).dropLast.all
        Augmenter.isPhotometric) = true ∧
    ((_gen_iters hp train_fp val_fp true).1.aug_list.getD []).getLast?
        = some (Augmenter.FgBgFlipAug 0.2) ∧
    (((_gen_iters hp train_fp val_fp true).1.aug_list.getD []).filter
        Augmenter.isFgBgFlip).length = 1 :=
  ⟨rfl, rfl, rfl, rfl, rfl⟩

/-- C8: the training iterator reads from train_fp ++ ".rec" / ".idx" and the
validation iterator from val_fp ++ ".rec" / ".idx". -/
theorem gen_iters_rec_idx_paths (hp : CnHyperparams)
    (train_fp val_fp : String) (use_train_image_aug : Bool) :
    (_gen_iters hp train_fp val_fp use_train_image_aug).1.path_imgrec
        = train_fp ++ ".rec" ∧
    (_gen_iters hp train_fp val_fp use_train_image_aug).1.path_imgidx
        = train_fp ++ ".idx" ∧
    (_gen_iters hp train_fp val_fp use_train_image_aug).2.path_imgrec
        = val_fp ++ ".rec" ∧
    (_gen_iters hp train_fp val_fp use_train_image_aug).2.path_imgidx
        = val_fp ++ ".idx" :=
  ⟨rfl, rfl, rfl, rfl⟩

/-- C9: `_update_hp` sets exactly the fields seq_model_type, num_epoch,
optimizer, batch_size, learning_rate, drop_out, wd and clip_gradient from the
CLI values, leaves img_height, img_width, seq_length and num_label at their
initial values, and the hyperparameter record carried by the rest of
`train_cnocr` is exactly this single update of the initial record. -/
theorem update_hp_exact_fields (hp0 : CnHyperparams) (args : Args) :
    (_update_hp hp0 args).seq_model_type = args.seq_model_type ∧
    (_update_hp hp0 args).num_epoch = args.epoch ∧
    (_update_hp hp0 args).optimizer = args.optimizer ∧
    (_update_hp hp0 args).batch_size = args.batch_size ∧
    (_update_hp hp0 args).learning_rate = args.lr ∧
    (_update_hp hp0 args).drop_out = args.dropout ∧
    (_update_hp hp0 args).wd = args.wd ∧
    (_update_hp hp0 args).clip_gradient = args.clip_gradient ∧
    (_update_hp hp0 args).img_height = hp0.img_height ∧
    (_update_hp hp0 args).img_width = hp0.img_width ∧
    (_update_hp hp0 args).seq_length = hp0.seq_length ∧
    (_update_hp hp0 args).num_label = hp0.num_label ∧
    ∀ (mv : String) (fs_exists : String → Bool),
      (train_cnocr mv fs_exists hp0 args).1.hp = _update_hp hp0 args :=
  ⟨rfl, rfl, rfl, rfl, rfl, rfl, rfl, rfl, rfl, rfl, rfl, rfl,
   fun _ _ => rfl⟩

/-- C10: the training iterator is constructed with shuffle=True and the
validation iterator with the constructor's default, no shuffling. -/
theorem gen_iters_shuffle_train_only (hp : CnHyperparams)
    (train_fp val_fp : String) (use_train_image_aug : Bool) :
    (_gen_iters hp train_fp val_fp use_train_image_aug).1.shuffle = true ∧
    (_gen_iters hp train_fp val_fp use_train_image_aug).2.shuffle = false :=
  ⟨rfl, rfl⟩
